import Mathlib

/-!
Verification development for the Peachtree Bank REST API
(repository `petrunov/gs-peachtree-bank`).

The definitions below are a shallow embedding of the repository's data model
(`src/models.py`), validation layer (`src/schemas.py`), database helpers
(`src/db.py`, `src/errors.py`) and the endpoint functions
(`src/app.py`, `src/routes/transactions.py`, `src/routes/accounts.py`,
`src/routes/search.py`).

Modelling conventions:
* Fixed-point decimals with two fractional places (`db.Numeric(10, 2)` amounts
  and balances) are represented as integer numbers of cents (`Int`).
* Timestamps (`datetime.utcnow`) are represented as an abstract `Nat` clock
  value `now` threaded into each mutating operation.
* JSON request bodies are represented by structures of `Option` fields: `none`
  means the key is absent from the JSON object; `unknownFields` lists any keys
  not declared on the marshmallow schema (marshmallow's default
  `unknown = RAISE` behaviour rejects them with "Unknown field.").
  String values model the value after `validate_request`'s `sanitize_string`
  pass (src/schemas.py lines 143-165), which strips HTML tags and is the
  identity on the tag-free strings considered throughout.
* A mutating endpoint is a function from the store state (`DB`) to a
  `TxResult`, which carries the observable post-state together with either the
  response value or the error translated by the boundary
  (`register_error_handlers`, src/errors.py).
-/

namespace Peachtree

/-! ## Data model (src/models.py) -/

/-- Enumerated transaction states, models.py lines 12-19
(`TransactionState`: SENT = 'sent', RECEIVED = 'received', PAID = 'paid'). -/
def transactionStateValues : List String := ["sent", "received", "paid"]

/-- Enumerated transaction types, models.py lines 22-29
(`TransactionType`: 'Card Payments', 'Transaction', 'Online transfer'). -/
def transactionTypeValues : List String :=
  ["Card Payments", "Transaction", "Online transfer"]

/-- Account rows, models.py lines 32-56.

The `balance` column is absent from src/models.py in this snapshot.
Modelled from the spec: the spec's balance-tracking variant declares
`balance (fixed-point decimal)` on Account (spec §3), and src/app.py's
`create_transaction` (lines 903-924) reads and writes `from_account.balance`
and `to_account.balance`; only the column declaration itself is missing from
src/.  Operations embedded from src/routes/* never touch `balance`. -/
structure Account where
  id : Int
  account_number : String
  account_name : String
  currency : String
  balance : Int
  created_at : Nat
  updated_at : Nat
deriving Repr, DecidableEq

/-- Transaction rows, models.py lines 59-77.

The stored `beneficiary_stored` column is absent from src/models.py (where
`beneficiary` is a derived read-time property, lines 71-74).
Modelled from the spec: the spec (§3) says beneficiary is "stored directly"
in one variant, and src/app.py line 916 passes `beneficiary=` to the
`Transaction` constructor; only that column declaration is missing from src/.
Operations embedded from src/routes/* leave it `none`. -/
structure Transaction where
  id : Int
  date : Nat
  amount : Int
  from_account_id : Int
  to_account_id : Int
  state : String
  description : String
  beneficiary_stored : Option String
  created_at : Nat
  updated_at : Nat
deriving Repr, DecidableEq

/-- Mapped column names declared with `db.Column` on the Transaction model,
models.py lines 61-69.  `beneficiary` is deliberately NOT in this list: in
models.py lines 71-74 it is a plain Python `@property`, so class-level
attribute access yields a bare property object without query operators. -/
def transactionColumnNames : List String :=
  ["id", "date", "amount", "from_account_id", "to_account_id",
   "state", "description", "created_at", "updated_at"]

/-- Store state: the two tables plus the autoincrement counter for the
transaction primary key. -/
structure DB where
  accounts : List Account
  transactions : List Transaction
  nextId : Int
deriving Repr, DecidableEq

/-- Primary-key integrity of the store: ids are unique and the autoincrement
counter is ahead of every existing transaction id. -/
def DB.WF (db : DB) : Prop :=
  (db.accounts.map (·.id)).Nodup ∧
  (db.transactions.map (·.id)).Nodup ∧
  ∀ t ∈ db.transactions, t.id < db.nextId

instance (db : DB) : Decidable db.WF := by
  unfold DB.WF; infer_instance

/-- Model of `Model.query.get(id)` for accounts. -/
def DB.findAccount (db : DB) (i : Int) : Option Account :=
  db.accounts.find? (fun a => a.id == i)

/-- Model of `Model.query.get(id)` for transactions. -/
def DB.findTransaction (db : DB) (i : Int) : Option Transaction :=
  db.transactions.find? (fun t => t.id == i)

/-- Derived beneficiary, models.py lines 71-74: the current `account_name` of
the `to_account` relationship target, or `None` when it does not resolve. -/
def Transaction.beneficiary (t : Transaction) (db : DB) : Option String :=
  (db.findAccount t.to_account_id).map (fun a => a.account_name)

/-- Balance of the account with the given id (0 when absent; only used in
statements where the account exists). -/
def DB.balanceOf (db : DB) (i : Int) : Int :=
  ((db.findAccount i).map (fun a => a.balance)).getD 0

/-- Sum of all account balances. -/
def balancesSum (l : List Account) : Int :=
  (l.map (fun a => a.balance)).sum

/-! ## Error taxonomy (src/errors.py) -/

/-- Errors observable at the HTTP boundary.  `validationError` and
`resourceNotFoundError` are the custom `APIError` subclasses (errors.py lines
19-28); `apiError` is a bare `APIError` such as the one raised by
`db_transaction` (db.py line 64); `unexpectedError` stands for a non-`APIError`
Python exception converted by the generic handler (errors.py lines 109-116)
into a 500 `{"error": "UnexpectedError", "message": "An unexpected error
occurred"}` response. -/
inductive APIErr where
  | validationError (message : String) (details : List (String × List String))
  | resourceNotFoundError (message : String)
  | apiError (statusCode : Int) (message : String)
  | unexpectedError (message : String)
deriving Repr, DecidableEq

/-- HTTP status code corresponding to each error (errors.py lines 12, 22, 28,
66-75, 109-116). -/
def APIErr.status : APIErr → Int
  | .validationError _ _ => 400
  | .resourceNotFoundError _ => 404
  | .apiError c _ => c
  | .unexpectedError _ => 500

/-- Result of an operation run against the store: the observable post-state
together with the response value or the error. -/
inductive TxResult (α : Type) where
  | ok (db : DB) (v : α)
  | err (db : DB) (e : APIErr)
deriving Repr, DecidableEq

/-! ## Database helpers (src/db.py) -/

/-- Exceptions that can escape the body of a `with db_transaction():` block. -/
inductive StoreErr where
  | sqlalchemyError (message : String)
  | raised (e : APIErr)
deriving Repr, DecidableEq

/-- Model of the `db_transaction` context manager, db.py lines 42-67: the
block's tentative writes produce a candidate post-state; on success the
candidate is committed, on `SQLAlchemyError` the session is rolled back (the
observable state stays `db0`) and the error is re-raised as
`APIError(f"Transaction error: {e}", status_code=500)`; any other exception
also rolls back and is re-raised unchanged. -/
def db_transaction (db0 : DB) (body : Except StoreErr (DB × α)) : TxResult α :=
  match body with
  | .ok (db1, v) => .ok db1 v
  | .error (.sqlalchemyError m) =>
      .err db0 (.apiError 500 ("Transaction error: " ++ m))
  | .error (.raised e) => .err db0 e

/-- Model of `get_or_404` (db.py lines 70-87) for accounts. -/
def getAccountOr404 (db : DB) (i : Int) : Except APIErr Account :=
  match db.findAccount i with
  | some a => .ok a
  | none => .error (.resourceNotFoundError s!"Account with ID {i} not found")

/-- Model of `get_or_404` (db.py lines 70-87) for transactions. -/
def getTransactionOr404 (db : DB) (i : Int) : Except APIErr Transaction :=
  match db.findTransaction i with
  | some t => .ok t
  | none => .error (.resourceNotFoundError s!"Transaction with ID {i} not found")

/-! ## Validation layer (src/schemas.py)

Each marshmallow schema is embedded as a function from the body structure to
`Except` over the collected field-error dictionary.  marshmallow collects the
errors of all fields (in field-declaration order, unknown keys last) and
`validate_request` (schemas.py lines 168-196) re-raises them as
`ValidationError("Request validation failed", payload=err.messages)`. -/

/-- Request body of POST /api/transactions as parsed JSON.  `amount` is in
cents, after the 2-place quantization performed by
`fields.Decimal(places=2)`. -/
structure TransactionBody where
  from_account_id : Option Int := none
  to_account_id : Option Int := none
  amount : Option Int := none
  description : Option String := none
  state : Option String := none
  beneficiary : Option String := none
  unknownFields : List String := []
deriving Repr, DecidableEq

/-- Python truthiness of the parsed JSON body: `if not data` is taken both for
an absent/null body and for an empty object `{}`. -/
def TransactionBody.falsy (b : TransactionBody) : Bool :=
  b.from_account_id.isNone && b.to_account_id.isNone && b.amount.isNone &&
  b.description.isNone && b.state.isNone && b.beneficiary.isNone &&
  b.unknownFields.isEmpty

/-- Validated output of `TransactionSchema.load`. -/
structure TransactionData where
  from_account_id : Int
  to_account_id : Int
  amount : Int
  description : String
  state : Option String
  beneficiary : Option String
deriving Repr, DecidableEq

/-- Required `fields.Integer` with a `Range(min=...)` validator (schemas.py):
absent keys give "Missing data for required field.", values below the minimum
give the configured error message. -/
def requiredMinIntField (name : String) (minVal : Int) (errMsg : String)
    (v : Option Int) : List (String × List String) :=
  match v with
  | none => [(name, ["Missing data for required field."])]
  | some n => if n < minVal then [(name, [errMsg])] else []

/-- A `fields.String` with a `OneOf` validator (schemas.py): when required and
absent gives "Missing data for required field.", values outside the allowed
list give the configured error message. -/
def oneOfField (name : String) (allowed : List String) (errMsg : String)
    (required : Bool) (v : Option String) : List (String × List String) :=
  match v with
  | none => if required then [(name, ["Missing data for required field."])] else []
  | some s => if s ∈ allowed then [] else [(name, [errMsg])]

/-- The `OneOf` error message for `description` (schemas.py lines 56-62). -/
def descriptionOneOfMsg : String :=
  "Description must be one of: Card Payments, Transaction, Online transfer"

/-- The `OneOf` error message for `state` (schemas.py lines 63-68, 77-85). -/
def stateOneOfMsg : String := "State must be one of: sent, received, paid"

/-- Field-level errors of `TransactionSchema` (schemas.py lines 40-68) against
a request body.  The schema declares no `beneficiary` field, so a `beneficiary`
key — like any other undeclared key — is rejected as "Unknown field."
(marshmallow default `unknown = RAISE`). -/
def transactionFieldErrors (b : TransactionBody) : List (String × List String) :=
  requiredMinIntField "from_account_id" 1 "Invalid source account ID" b.from_account_id ++
  requiredMinIntField "to_account_id" 1 "Invalid destination account ID" b.to_account_id ++
  requiredMinIntField "amount" 1 "Amount must be greater than zero" b.amount ++
  oneOfField "description" transactionTypeValues descriptionOneOfMsg true b.description ++
  oneOfField "state" transactionStateValues stateOneOfMsg false b.state ++
  (match b.beneficiary with
   | some _ => [("beneficiary", ["Unknown field."])]
   | none => []) ++
  b.unknownFields.map (fun k => (k, ["Unknown field."]))

/-- Model of `TransactionSchema.load` (schemas.py lines 40-74): field
validation first; the schema-level `validate_different_accounts` check (lines
70-74) runs only when no field errors exist (marshmallow
`skip_on_field_errors` default) and rejects equal account ids. -/
def loadTransactionSchema (b : TransactionBody) :
    Except (List (String × List String)) TransactionData :=
  match b.from_account_id, b.to_account_id, b.amount, b.description with
  | some f, some t, some a, some d =>
    let errs := transactionFieldErrors b
    if errs.isEmpty then
      if f = t then
        .error [("to_account_id", ["Source and destination accounts must be different"])]
      else
        .ok { from_account_id := f, to_account_id := t, amount := a,
              description := d, state := b.state, beneficiary := b.beneficiary }
    else .error errs
  | _, _, _, _ => .error (transactionFieldErrors b)

/-- Field-level errors of the balance-tracking variant's transaction schema.
Modelled from the spec: src/app.py line 916 reads `validated_data['beneficiary']`
and its swagger block (line 770) marks `beneficiary` required, but the
corresponding schema declaration is missing from src/schemas.py; per the spec
(§6 POST body) it is a required free-text field.  All other fields follow
src/schemas.py `TransactionSchema` exactly. -/
def transactionFieldErrorsBT (b : TransactionBody) : List (String × List String) :=
  requiredMinIntField "from_account_id" 1 "Invalid source account ID" b.from_account_id ++
  requiredMinIntField "to_account_id" 1 "Invalid destination account ID" b.to_account_id ++
  requiredMinIntField "amount" 1 "Amount must be greater than zero" b.amount ++
  oneOfField "description" transactionTypeValues descriptionOneOfMsg true b.description ++
  oneOfField "state" transactionStateValues stateOneOfMsg false b.state ++
  (match b.beneficiary with
   | none => [("beneficiary", ["Missing data for required field."])]
   | some _ => []) ++
  b.unknownFields.map (fun k => (k, ["Unknown field."]))

/-- Balance-tracking variant of `TransactionSchema.load`; see
`transactionFieldErrorsBT`. -/
def loadTransactionSchemaBT (b : TransactionBody) :
    Except (List (String × List String)) TransactionData :=
  match b.from_account_id, b.to_account_id, b.amount, b.description with
  | some f, some t, some a, some d =>
    let errs := transactionFieldErrorsBT b
    if errs.isEmpty then
      if f = t then
        .error [("to_account_id", ["Source and destination accounts must be different"])]
      else
        .ok { from_account_id := f, to_account_id := t, amount := a,
              description := d, state := b.state, beneficiary := b.beneficiary }
    else .error errs
  | _, _, _, _ => .error (transactionFieldErrorsBT b)

/-- Request body of PATCH /api/transactions/{id} as parsed JSON. -/
structure UpdateBody where
  state : Option String := none
  unknownFields : List String := []
deriving Repr, DecidableEq

/-- Python truthiness of the PATCH body (`if not data`). -/
def UpdateBody.falsy (b : UpdateBody) : Bool :=
  b.state.isNone && b.unknownFields.isEmpty

/-- Field-level errors of `TransactionUpdateSchema` (schemas.py lines 77-85):
`state` is required and must be one of the enumerated values. -/
def updateFieldErrors (b : UpdateBody) : List (String × List String) :=
  oneOfField "state" transactionStateValues stateOneOfMsg true b.state ++
  b.unknownFields.map (fun k => (k, (["Unknown field."])))

/-- Model of `TransactionUpdateSchema.load`. -/
def loadTransactionUpdateSchema (b : UpdateBody) :
    Except (List (String × List String)) String :=
  match b.state with
  | some s =>
    let errs := updateFieldErrors b
    if errs.isEmpty then .ok s else .error errs
  | none => .error (updateFieldErrors b)

/-- Validated output of the query-parameter schemas. -/
structure TransactionQuery where
  limit : Int
  offset : Int
  sort_by : String
  sort_order : String
  search : Option String
deriving Repr, DecidableEq

/-- The `limit` field shared by both query schemas (schemas.py lines 90-93,
116-119): `Range(min=1, max=100)`, `missing=100`. -/
def limitFieldErrors (v : Option Int) : List (String × List String) :=
  match v with
  | none => []
  | some l => if l < 1 || 100 < l then
      [("limit", ["Limit must be between 1 and 100"])] else []

/-- The `offset` field shared by both query schemas (schemas.py lines 94-97,
120-123): `Range(min=0)`, `missing=0`. -/
def offsetFieldErrors (v : Option Int) : List (String × List String) :=
  match v with
  | none => []
  | some o => if o < 0 then [("offset", ["Offset cannot be negative"])] else []

/-- Collected field errors of `TransactionQuerySchema` (schemas.py lines
114-140). -/
def transactionQueryErrors (limit offset : Option Int)
    (sort_by sort_order search : Option String) : List (String × List String) :=
  limitFieldErrors limit ++ offsetFieldErrors offset ++
  oneOfField "sort_by" ["date", "amount", "beneficiary"]
    "Sort field must be one of: date, amount, beneficiary" false sort_by ++
  oneOfField "sort_order" ["asc", "desc"]
    "Sort order must be one of: asc, desc" false sort_order ++
  (match search with
   | none => []
   | some s => if 100 < s.length then
       [("search", ["Search query cannot exceed 100 characters"])] else [])

/-- Model of `TransactionQuerySchema.load` (schemas.py lines 114-140).
An argument value of `none` models a query parameter that is absent or empty
(the endpoints only forward parameters for which `request.args.get(param)` is
truthy). -/
def loadTransactionQuerySchema (limit offset : Option Int)
    (sort_by sort_order search : Option String) :
    Except (List (String × List String)) TransactionQuery :=
  if (transactionQueryErrors limit offset sort_by sort_order search).isEmpty then
    .ok { limit := limit.getD 100, offset := offset.getD 0,
          sort_by := sort_by.getD "date", sort_order := sort_order.getD "desc",
          search := search }
  else .error (transactionQueryErrors limit offset sort_by sort_order search)

/-- Validated output of `AccountQuerySchema`. -/
structure AccountQuery where
  limit : Int
  offset : Int
  sort_by : String
  sort_order : String
deriving Repr, DecidableEq

/-- Collected field errors of `AccountQuerySchema` (schemas.py lines
88-111). -/
def accountQueryErrors (limit offset : Option Int)
    (sort_by sort_order : Option String) : List (String × List String) :=
  limitFieldErrors limit ++ offsetFieldErrors offset ++
  oneOfField "sort_by" ["account_number", "account_name", "balance", "created_at"]
    "Sort field must be one of: account_number, account_name, balance, created_at"
    false sort_by ++
  oneOfField "sort_order" ["asc", "desc"]
    "Sort order must be one of: asc, desc" false sort_order

/-- Model of `AccountQuerySchema.load` (schemas.py lines 88-111). -/
def loadAccountQuerySchema (limit offset : Option Int)
    (sort_by sort_order : Option String) :
    Except (List (String × List String)) AccountQuery :=
  if (accountQueryErrors limit offset sort_by sort_order).isEmpty then
    .ok { limit := limit.getD 100, offset := offset.getD 0,
          sort_by := sort_by.getD "account_number",
          sort_order := sort_order.getD "asc" }
  else .error (accountQueryErrors limit offset sort_by sort_order)

/-! ## Query helpers -/

/-- Whether `pat` occurs as a leading subsequence of `l`. -/
def charsLeadMatch : List Char → List Char → Bool
  | [], _ => true
  | _ :: _, [] => false
  | a :: as, b :: bs => a == b && charsLeadMatch as bs

/-- Whether `pat` occurs contiguously anywhere inside `l`. -/
def charsOccurIn (pat : List Char) : List Char → Bool
  | [] => charsLeadMatch pat []
  | b :: bs => charsLeadMatch pat (b :: bs) || charsOccurIn pat bs

/-- Model of `column.ilike(f"%{q}%")`: case-insensitive containment of the
query string in the column value (queries containing SQL wildcard characters
are outside the scope of the claims). -/
def ilikeMatch (q value : String) : Bool :=
  charsOccurIn q.toLower.toList value.toLower.toList

/-- Insertion into a list sorted by `le`. -/
def insertLe (le : α → α → Bool) (a : α) : List α → List α
  | [] => [a]
  | b :: l => if le a b then a :: b :: l else b :: insertLe le a l

/-- Model of `ORDER BY`: a sort of the result rows by the comparison `le`
(SQL leaves the relative order of ties unspecified; any fixed sort is a
faithful refinement). -/
def sortByLe (le : α → α → Bool) : List α → List α
  | [] => []
  | a :: l => insertLe le a (sortByLe le l)

/-- Model of `.limit(lim).offset(off)`, i.e. SQL `LIMIT lim OFFSET off`:
skip `off` rows, then return at most `lim` rows.  Following SQLite, a negative
offset behaves as zero and a negative limit means no upper bound (neither case
is reachable through the validated endpoints). -/
def sqlPage (lim off : Int) (l : List α) : List α :=
  let l1 := l.drop off.toNat
  if lim < 0 then l1 else l1.take lim.toNat

/-- Text content of a mapped Transaction column, for `ilike` filters (only the
two string-valued columns are ever matched in the source). -/
def Transaction.columnText (t : Transaction) (attr : String) : String :=
  match attr with
  | "state" => t.state
  | "description" => t.description
  | _ => ""

/-- Model of building the filter expression `Transaction.<attr>.ilike(pat)`:
for a mapped column this yields a row predicate; for any other class attribute
— in particular `beneficiary`, which models.py lines 71-74 declare as a plain
Python property — the attribute lookup yields an object without an `ilike`
method, so Python raises `AttributeError`, which the generic exception handler
(errors.py lines 109-116) turns into a 500 "An unexpected error occurred"
response. -/
def transactionIlike (attr : String) (q : String) :
    Except APIErr (Transaction → Bool) :=
  if attr ∈ transactionColumnNames then
    .ok (fun t => ilikeMatch q (t.columnText attr))
  else
    .error (.unexpectedError "An unexpected error occurred")

/-! ## Response shapes (the jsonify dictionaries of the endpoints) -/

/-- Transaction JSON shape returned by the transaction endpoints (the
`beneficiary` key is populated from the derived `transaction.beneficiary`
property at serialization time). -/
structure TransactionResponse where
  id : Int
  date : Nat
  amount : Int
  from_account_id : Int
  to_account_id : Int
  beneficiary : Option String
  state : String
  description : String
deriving Repr, DecidableEq

/-- Serialization of a transaction row, as in e.g.
src/routes/transactions.py lines 278-287. -/
def Transaction.toResponse (t : Transaction) (db : DB) : TransactionResponse :=
  { id := t.id, date := t.date, amount := t.amount,
    from_account_id := t.from_account_id, to_account_id := t.to_account_id,
    beneficiary := t.beneficiary db, state := t.state,
    description := t.description }

/-- Account JSON shape returned by the account endpoints
(src/routes/accounts.py lines 142-151, 236-243); no balance key. -/
structure AccountResponse where
  id : Int
  account_number : String
  account_name : String
  currency : String
  created_at : Nat
  updated_at : Nat
deriving Repr, DecidableEq

/-- Serialization of an account row. -/
def Account.toResponse (a : Account) : AccountResponse :=
  { id := a.id, account_number := a.account_number,
    account_name := a.account_name, currency := a.currency,
    created_at := a.created_at, updated_at := a.updated_at }

/-- Account entry of the /api/search response
(src/routes/search.py lines 168-175). -/
structure AccountSearchResult where
  id : Int
  account_number : String
  account_name : String
  type : String
deriving Repr, DecidableEq

/-- Transaction entry of the /api/search response
(src/routes/search.py lines 177-186). -/
structure TransactionSearchResult where
  id : Int
  date : Nat
  amount : Int
  beneficiary : Option String
  description : String
  type : String
deriving Repr, DecidableEq

/-- Body of the /api/search response (src/routes/search.py lines 188-192). -/
structure SearchResponse where
  accounts : List AccountSearchResult
  transactions : List TransactionSearchResult
deriving Repr, DecidableEq

/-! ## Read endpoints -/

/-- GET /api/transactions/{id} (src/routes/transactions.py lines 266-287 and
identically src/app.py lines 581-602). -/
def get_transaction_ep (db : DB) (transaction_id : Int) :
    TxResult TransactionResponse :=
  match getTransactionOr404 db transaction_id with
  | .error e => .err db e
  | .ok t => .ok db (t.toResponse db)

/-- GET /api/accounts/{id} (src/routes/accounts.py lines 224-243). -/
def get_account_ep (db : DB) (account_id : Int) : TxResult AccountResponse :=
  match getAccountOr404 db account_id with
  | .error e => .err db e
  | .ok a => .ok db a.toResponse

/-- Sorting of the transaction list (src/routes/transactions.py lines
153-168): `date` and `amount` sort on the column; `beneficiary` first joins
`Account` on `to_account_id` (an inner join, dropping transactions whose
destination account is missing) and sorts on `Account.account_name`; the
defensive `else` branch repeats the `date` sort. -/
def sortTransactions (db : DB) (sort_by sort_order : String)
    (l : List Transaction) : List Transaction :=
  let joined := if sort_by = "beneficiary" then
      l.filter (fun t => (db.findAccount t.to_account_id).isSome)
    else l
  let le : Transaction → Transaction → Bool :=
    match sort_by with
    | "amount" => fun t1 t2 => decide (t1.amount ≤ t2.amount)
    | "beneficiary" => fun t1 t2 =>
        decide ((((db.findAccount t1.to_account_id).map
                    (fun a => a.account_name)).getD "") ≤
                (((db.findAccount t2.to_account_id).map
                    (fun a => a.account_name)).getD ""))
    | _ => fun t1 t2 => decide (t1.date ≤ t2.date)
  if sort_order = "asc" then sortByLe le joined
  else sortByLe (fun a b => le b a) joined

/-- GET /api/transactions (src/routes/transactions.py lines 114-188).
A parameter value of `none` models a query parameter that is absent or empty
(the endpoint forwards only truthy `request.args` values to the schema).
The `search` filter joins `Account` on `to_account_id` and matches
`Account.account_name` or `Transaction.description` case-insensitively
(lines 144-151). -/
def get_transactions_ep (db : DB) (limit offset : Option Int)
    (sort_by sort_order search : Option String) :
    TxResult (List TransactionResponse) :=
  match loadTransactionQuerySchema limit offset sort_by sort_order search with
  | .error msgs => .err db (.validationError "Request validation failed" msgs)
  | .ok q =>
    let filtered :=
      match q.search with
      | none => db.transactions
      | some s => db.transactions.filter (fun t =>
          match db.findAccount t.to_account_id with
          | none => false
          | some a => ilikeMatch s a.account_name || ilikeMatch s t.description)
    let sorted := sortTransactions db q.sort_by q.sort_order filtered
    .ok db ((sqlPage q.limit q.offset sorted).map (fun t => t.toResponse db))

/-- Sorting of the account list (src/routes/accounts.py lines 123-136); the
`else` branch (covering the schema-allowed value `balance`) falls back to
`account_number`, and the comparison honours `sort_order.lower()`. -/
def sortAccounts (sort_by sort_order : String) (l : List Account) :
    List Account :=
  let le : Account → Account → Bool :=
    match sort_by with
    | "account_name" => fun a1 a2 => decide (a1.account_name ≤ a2.account_name)
    | "created_at" => fun a1 a2 => decide (a1.created_at ≤ a2.created_at)
    | _ => fun a1 a2 => decide (a1.account_number ≤ a2.account_number)
  if sort_order.toLower = "asc" then sortByLe le l
  else sortByLe (fun a b => le b a) l

/-- GET /api/accounts (src/routes/accounts.py lines 96-154). -/
def get_accounts_ep (db : DB) (limit offset : Option Int)
    (sort_by sort_order : Option String) : TxResult (List AccountResponse) :=
  match loadAccountQuerySchema limit offset sort_by sort_order with
  | .error msgs => .err db (.validationError "Request validation failed" msgs)
  | .ok q =>
    let sorted := sortAccounts q.sort_by q.sort_order db.accounts
    .ok db ((sqlPage q.limit q.offset sorted).map Account.toResponse)

/-- GET /api/search (src/routes/search.py lines 128-192 and identically
src/app.py lines 268-332).  `q = none` models an absent parameter; a missing
or empty query raises `ValidationError("Search query is required")`; limit and
offset bypass the schemas (`request.args.get('limit', 100, type=int)`) with
only the `limit > 100` clamp applied.  The account query runs first; building
the transaction filter then evaluates `Transaction.beneficiary.ilike(...)`,
which fails (see `transactionIlike`) because `beneficiary` is not a mapped
column in src/models.py. -/
def search_ep (db : DB) (q : Option String) (limit offset : Option Int) :
    TxResult SearchResponse :=
  match q with
  | none => .err db (.validationError "Search query is required" [])
  | some qs =>
    if qs = "" then .err db (.validationError "Search query is required" [])
    else
      let lim := if limit.getD 100 > 100 then 100 else limit.getD 100
      let off := offset.getD 0
      let accountRows := sqlPage lim off (db.accounts.filter (fun a =>
        ilikeMatch qs a.account_number || ilikeMatch qs a.account_name))
      match transactionIlike "beneficiary" qs with
      | .error e => .err db e
      | .ok f1 =>
        match transactionIlike "description" qs with
        | .error e => .err db e
        | .ok f2 =>
          let txRows := sqlPage lim off
            (db.transactions.filter (fun t => f1 t || f2 t))
          .ok db
            { accounts := accountRows.map (fun a =>
                { id := a.id, account_number := a.account_number,
                  account_name := a.account_name, type := "account" }),
              transactions := txRows.map (fun t =>
                { id := t.id, date := t.date, amount := t.amount,
                  beneficiary := t.beneficiary db,
                  description := t.description, type := "transaction" }) }

/-! ## Mutating endpoints

Each takes the current store state, the abstract clock `now`, the parsed JSON
body (`none` = no JSON body), and a fault-injection parameter `fault`:
`some m` simulates the store raising `SQLAlchemyError(m)` at commit time, after
the block's tentative writes (the spec's "simulated fault after balance
decrement, before commit"); `none` is normal operation. -/

/-- PATCH /api/transactions/{id} (src/routes/transactions.py lines 403-437 and
identically src/app.py lines 718-755): body truthiness check, then
`TransactionUpdateSchema` validation, then `get_or_404`, then — inside
`db_transaction` — overwrite of the `state` field, with `updated_at` refreshed
by the column's `onupdate` (models.py line 69). -/
def update_transaction (db : DB) (now : Nat) (transaction_id : Int)
    (body : Option UpdateBody) (fault : Option String) :
    TxResult TransactionResponse :=
  match body with
  | none => .err db (.validationError "No JSON data provided" [])
  | some b =>
    if b.falsy then .err db (.validationError "No JSON data provided" [])
    else
      match loadTransactionUpdateSchema b with
      | .error msgs => .err db (.validationError "Request validation failed" msgs)
      | .ok s =>
        match getTransactionOr404 db transaction_id with
        | .error e => .err db e
        | .ok t0 =>
          let t1 := { t0 with state := s, updated_at := now }
          let db1 := { db with transactions := db.transactions.map (fun t =>
            if t.id == transaction_id then { t with state := s, updated_at := now }
            else t) }
          match db_transaction db
              (match fault with
               | some m => .error (.sqlalchemyError m)
               | none => .ok (db1, t1)) with
          | .ok db2 t2 => .ok db2 (t2.toResponse db2)
          | .err db2 e => .err db2 e

/-- POST /api/transactions, blueprint variant (src/routes/transactions.py
lines 558-607): body truthiness check, `TransactionSchema` validation,
`get_or_404` on both accounts, then — inside `db_transaction` — insertion of
the new row with initial state `'sent'`.  `validated_data.get('date')` is
always `None` (the schema declares no `date` field), so the `date` column
default `datetime.utcnow` applies; no balances are touched. -/
def create_transaction (db : DB) (now : Nat) (body : Option TransactionBody) :
    TxResult TransactionResponse :=
  match body with
  | none => .err db (.validationError "No JSON data provided" [])
  | some b =>
    if b.falsy then .err db (.validationError "No JSON data provided" [])
    else
      match loadTransactionSchema b with
      | .error msgs => .err db (.validationError "Request validation failed" msgs)
      | .ok data =>
        match getAccountOr404 db data.from_account_id with
        | .error e => .err db e
        | .ok from_account =>
          match getAccountOr404 db data.to_account_id with
          | .error e => .err db e
          | .ok to_account =>
            let t : Transaction :=
              { id := db.nextId, date := now, amount := data.amount,
                from_account_id := from_account.id,
                to_account_id := to_account.id, state := "sent",
                description := data.description, beneficiary_stored := none,
                created_at := now, updated_at := now }
            let db1 : DB :=
              { db with
                transactions := db.transactions ++ [t],
                nextId := db.nextId + 1 }
            match db_transaction db (.ok (db1, t)) with
            | .ok db2 t2 => .ok db2 (t2.toResponse db2)
            | .err db2 e => .err db2 e

/-- Balance update applied inside the balance-tracking create
(src/app.py lines 922-924): `from_account.balance -= amount;
to_account.balance += amount`, with `updated_at` refreshed by `onupdate`. -/
def applyBalanceMove (fromId toId : Int) (amount : Int) (now : Nat)
    (a : Account) : Account :=
  if a.id = fromId then { a with balance := a.balance - amount, updated_at := now }
  else if a.id = toId then { a with balance := a.balance + amount, updated_at := now }
  else a

/-- POST /api/transactions, balance-tracking variant (src/app.py lines
879-938): after validation and the two `get_or_404` lookups it additionally
checks `from_account.balance < amount` ("Insufficient funds in source
account", line 905) and, inside the same `db_transaction` block, inserts the
row (storing the validated `beneficiary`) and moves `amount` from the source
balance to the destination balance. -/
def create_transaction_bt (db : DB) (now : Nat) (body : Option TransactionBody)
    (fault : Option String) : TxResult TransactionResponse :=
  match body with
  | none => .err db (.validationError "No JSON data provided" [])
  | some b =>
    if b.falsy then .err db (.validationError "No JSON data provided" [])
    else
      match loadTransactionSchemaBT b with
      | .error msgs => .err db (.validationError "Request validation failed" msgs)
      | .ok data =>
        match getAccountOr404 db data.from_account_id with
        | .error e => .err db e
        | .ok from_account =>
          match getAccountOr404 db data.to_account_id with
          | .error e => .err db e
          | .ok to_account =>
            if from_account.balance < data.amount then
              .err db (.validationError "Insufficient funds in source account" [])
            else
              let t : Transaction :=
                { id := db.nextId, date := now, amount := data.amount,
                  from_account_id := from_account.id,
                  to_account_id := to_account.id, state := "sent",
                  description := data.description,
                  beneficiary_stored := data.beneficiary,
                  created_at := now, updated_at := now }
              let db1 :=
                { accounts := db.accounts.map
                    (applyBalanceMove from_account.id to_account.id data.amount now),
                  transactions := db.transactions ++ [t],
                  nextId := db.nextId + 1 }
              match db_transaction db
                  (match fault with
                   | some m => .error (.sqlalchemyError m)
                   | none => .ok (db1, t)) with
              | .ok db2 t2 => .ok db2 (t2.toResponse db2)
              | .err db2 e => .err db2 e

/-! ## Helper lemmas -/

/-- `find?` commutes with mapping a function that does not change the value of
the predicate. -/
theorem find?_map_congr {α : Type} (f : α → α) (p : α → Bool)
    (h : ∀ a, p (f a) = p a) :
    ∀ l : List α, (l.map f).find? p = (l.find? p).map f := by
  intro l
  induction l with
  | nil => rfl
  | cons a l ih =>
    simp only [List.map_cons, List.find?]
    rw [h a]
    cases hpa : p a with
    | false => simpa using ih
    | true => simp

/-- Single-account balance adjustment; `applyBalanceMove` decomposes into two
of these. -/
def adjustBalance (i δ : Int) (now : Nat) (a : Account) : Account :=
  if a.id = i then { a with balance := a.balance + δ, updated_at := now } else a

theorem adjustBalance_id (i δ : Int) (now : Nat) (a : Account) :
    (adjustBalance i δ now a).id = a.id := by
  unfold adjustBalance; split <;> rfl

theorem applyBalanceMove_eq_comp (fromId toId amount : Int) (now : Nat)
    (hne : fromId ≠ toId) (a : Account) :
    applyBalanceMove fromId toId amount now a =
      adjustBalance fromId (-amount) now (adjustBalance toId amount now a) := by
  unfold applyBalanceMove adjustBalance
  by_cases h2 : a.id = toId
  · have h1 : ¬ a.id = fromId := fun h1 => hne ((h1.symm.trans h2) ▸ rfl)
    simp [h1, h2, hne, Ne.symm hne]
  · by_cases h1 : a.id = fromId
    · simp [h1, h2, hne, Int.sub_eq_add_neg]
    · simp [h1, h2]

theorem map_adjustBalance_of_absent (i δ : Int) (now : Nat) (l : List Account)
    (h : ∀ a ∈ l, a.id ≠ i) : l.map (adjustBalance i δ now) = l := by
  induction l with
  | nil => rfl
  | cons a l ih =>
    rw [List.map_cons, ih (fun x hx => h x (List.mem_cons_of_mem a hx))]
    have := h a (List.mem_cons_self a l)
    rw [adjustBalance, if_neg this]

theorem balancesSum_cons (a : Account) (l : List Account) :
    balancesSum (a :: l) = a.balance + balancesSum l := by
  simp [balancesSum]

theorem balancesSum_map_adjust (i δ : Int) (now : Nat) (l : List Account)
    (hnd : (l.map (·.id)).Nodup) (hmem : ∃ a ∈ l, a.id = i) :
    balancesSum (l.map (adjustBalance i δ now)) = balancesSum l + δ := by
  induction l with
  | nil => simp at hmem
  | cons a l ih =>
    rw [List.map_cons] at hnd
    have hnd' := hnd.of_cons
    have hnotin : a.id ∉ l.map (·.id) := (List.nodup_cons.mp hnd).1
    by_cases ha : a.id = i
    · have habsent : ∀ x ∈ l, x.id ≠ i := by
        intro x hx hxi
        exact hnotin (ha ▸ hxi ▸ List.mem_map_of_mem (·.id) hx)
      rw [List.map_cons, map_adjustBalance_of_absent i δ now l habsent,
        balancesSum_cons, balancesSum_cons, adjustBalance, if_pos ha]
      show a.balance + δ + balancesSum l = a.balance + balancesSum l + δ
      ring
    · have hmem' : ∃ x ∈ l, x.id = i := by
        rcases hmem with ⟨x, hx, hxi⟩
        rcases List.mem_cons.mp hx with h | h
        · exact absurd (h ▸ hxi) ha
        · exact ⟨x, h, hxi⟩
      rw [List.map_cons, balancesSum_cons, balancesSum_cons, ih hnd' hmem',
        adjustBalance, if_neg ha]
      ring

theorem applyBalanceMove_id (fromId toId amount : Int) (now : Nat)
    (a : Account) :
    (applyBalanceMove fromId toId amount now a).id = a.id := by
  unfold applyBalanceMove; split
  · rfl
  · split <;> rfl

theorem getAccountOr404_ok (db : DB) (i : Int) (a : Account)
    (h : getAccountOr404 db i = .ok a) : db.findAccount i = some a := by
  unfold getAccountOr404 at h
  cases hf : db.findAccount i <;> rw [hf] at h
  · exact Except.noConfusion h
  · exact congrArg some (Except.ok.inj h)

theorem getTransactionOr404_ok (db : DB) (i : Int) (t : Transaction)
    (h : getTransactionOr404 db i = .ok t) : db.findTransaction i = some t := by
  unfold getTransactionOr404 at h
  cases hf : db.findTransaction i <;> rw [hf] at h
  · exact Except.noConfusion h
  · exact congrArg some (Except.ok.inj h)

theorem findAccount_some (db : DB) (i : Int) (a : Account)
    (h : db.findAccount i = some a) : a.id = i ∧ a ∈ db.accounts := by
  unfold DB.findAccount at h
  refine ⟨?_, List.mem_of_find?_eq_some h⟩
  have := List.find?_some h
  simpa using this

theorem findTransaction_some (db : DB) (i : Int) (t : Transaction)
    (h : db.findTransaction i = some t) : t.id = i ∧ t ∈ db.transactions := by
  unfold DB.findTransaction at h
  refine ⟨?_, List.mem_of_find?_eq_some h⟩
  have := List.find?_some h
  simpa using this

theorem balanceOf_eq_of_find (db : DB) (i : Int) (a : Account)
    (h : db.findAccount i = some a) : db.balanceOf i = a.balance := by
  unfold DB.balanceOf; rw [h]; rfl

theorem requiredMinIntField_eq_nil (name : String) (minVal : Int)
    (errMsg : String) (n : Int)
    (h : requiredMinIntField name minVal errMsg (some n) = []) : ¬ n < minVal := by
  intro hn
  rw [requiredMinIntField, if_pos hn] at h
  exact List.noConfusion h

theorem oneOfField_some_eq_nil (name : String) (allowed : List String)
    (errMsg : String) (required : Bool) (s : String)
    (h : oneOfField name allowed errMsg required (some s) = []) : s ∈ allowed := by
  by_cases hs : s ∈ allowed
  · exact hs
  · rw [oneOfField, if_neg hs] at h
    exact absurd h (List.noConfusion)

/-- Facts guaranteed by a successful `TransactionSchema.load` (balance-tracking
variant): required fields present, amount at least one cent, description in
the enumerated types, and distinct account ids. -/
theorem loadTransactionSchemaBT_ok (b : TransactionBody)
    (data : TransactionData) (h : loadTransactionSchemaBT b = .ok data) :
    b.from_account_id = some data.from_account_id ∧
    b.to_account_id = some data.to_account_id ∧
    b.amount = some data.amount ∧
    data.from_account_id ≠ data.to_account_id ∧
    1 ≤ data.amount ∧
    data.description ∈ transactionTypeValues := by
  cases hf : b.from_account_id with
  | none => simp [loadTransactionSchemaBT, hf] at h
  | some f =>
  cases ht : b.to_account_id with
  | none => simp [loadTransactionSchemaBT, hf, ht] at h
  | some t =>
  cases ha : b.amount with
  | none => simp [loadTransactionSchemaBT, hf, ht, ha] at h
  | some a =>
  cases hd : b.description with
  | none => simp [loadTransactionSchemaBT, hf, ht, ha, hd] at h
  | some d =>
  rw [loadTransactionSchemaBT] at h
  simp only [hf, ht, ha, hd] at h
  cases hempty : (transactionFieldErrorsBT b).isEmpty with
  | false => rw [if_neg (by simp [hempty])] at h; exact Except.noConfusion h
  | true =>
    rw [if_pos hempty] at h
    by_cases hft : f = t
    · rw [if_pos hft] at h; exact Except.noConfusion h
    · rw [if_neg hft] at h
      have hdata := Except.ok.inj h
      have hnil : transactionFieldErrorsBT b = [] :=
        List.isEmpty_iff.mp hempty
      rw [transactionFieldErrorsBT, hf, ht, ha, hd] at hnil
      rcases List.append_eq_nil.mp hnil with ⟨hL6, _⟩
      rcases List.append_eq_nil.mp hL6 with ⟨hL5, _⟩
      rcases List.append_eq_nil.mp hL5 with ⟨hL4, _⟩
      rcases List.append_eq_nil.mp hL4 with ⟨hL3, hdesc⟩
      rcases List.append_eq_nil.mp hL3 with ⟨_, hamt⟩
      subst hdata
      refine ⟨rfl, rfl, rfl, hft, ?_, ?_⟩
      · show 1 ≤ a
        have := requiredMinIntField_eq_nil "amount" 1
          "Amount must be greater than zero" a hamt
        omega
      · show d ∈ transactionTypeValues
        exact oneOfField_some_eq_nil _ _ _ _ _ hdesc

/-- Rollback guarantee of the `db_transaction` context manager (db.py lines
42-67): on any exception the observable state is the entry state. -/
theorem db_transaction_err {α : Type} (db0 : DB)
    (body : Except StoreErr (DB × α)) (s : DB) (e : APIErr)
    (h : db_transaction db0 body = .err s e) : s = db0 := by
  cases body with
  | ok p => exact TxResult.noConfusion h
  | error se =>
    cases se with
    | sqlalchemyError m => exact ((TxResult.err.inj h).1).symm
    | raised e' => exact ((TxResult.err.inj h).1).symm

/-! ## Sample store used by the witnesses -/

/-- Sample account 1 ("Alice", 500.00). -/
def acc1 : Account :=
  { id := 1, account_number := "1234567890", account_name := "Alice Checking",
    currency := "USD", balance := 50000, created_at := 0, updated_at := 0 }

/-- Sample account 2 ("Bob", 0.00). -/
def acc2 : Account :=
  { id := 2, account_number := "2234567890", account_name := "Bob Savings",
    currency := "USD", balance := 0, created_at := 0, updated_at := 0 }

/-- Sample pre-existing transaction (25.00 from account 1 to account 2). -/
def tx0 : Transaction :=
  { id := 1, date := 3, amount := 2500, from_account_id := 1,
    to_account_id := 2, state := "sent", description := "Transaction",
    beneficiary_stored := none, created_at := 3, updated_at := 3 }

/-- Sample store. -/
def dbSample : DB := { accounts := [acc1, acc2], transactions := [tx0], nextId := 2 }

/-- Sample valid POST body (100.00 from account 1 to account 2). -/
def bodySample : TransactionBody :=
  { from_account_id := some 1, to_account_id := some 2, amount := some 10000,
    description := some "Transaction", beneficiary := some "Bob Savings" }

/-- Store state after a successful balance-tracking create of `bodySample`
against `dbSample` at time 5. -/
def dbSampleAfter : DB :=
  { accounts :=
      [{ acc1 with balance := 40000, updated_at := 5 },
       { acc2 with balance := 10000, updated_at := 5 }],
    transactions :=
      [tx0,
       { id := 2, date := 5, amount := 10000, from_account_id := 1,
         to_account_id := 2, state := "sent", description := "Transaction",
         beneficiary_stored := some "Bob Savings", created_at := 5,
         updated_at := 5 }],
    nextId := 3 }

/-- Response of that successful create. -/
def respSample : TransactionResponse :=
  { id := 2, date := 5, amount := 10000, from_account_id := 1,
    to_account_id := 2, beneficiary := some "Bob Savings", state := "sent",
    description := "Transaction" }

/-! ## Claim theorems -/

/-- C1.  For every successful transaction creation in the balance-tracking
configuration (src/app.py `create_transaction`), the source account's balance
decreases by exactly the transaction amount, the destination account's balance
increases by exactly the transaction amount, and the sum of all account
balances is unchanged. -/
theorem c1_create_conserves_balances
    (db : DB) (now : Nat) (body : Option TransactionBody)
    (db' : DB) (resp : TransactionResponse)
    (hwf : db.WF)
    (h : create_transaction_bt db now body none = .ok db' resp) :
    db'.balanceOf resp.from_account_id
      = db.balanceOf resp.from_account_id - resp.amount ∧
    db'.balanceOf resp.to_account_id
      = db.balanceOf resp.to_account_id + resp.amount ∧
    balancesSum db'.accounts = balancesSum db.accounts := by
  cases body with
  | none => simp [create_transaction_bt] at h
  | some b =>
  simp only [create_transaction_bt] at h
  split at h
  · exact TxResult.noConfusion h
  split at h
  next msgs hload => exact TxResult.noConfusion h
  next data hload =>
  split at h
  next e hfrom => exact TxResult.noConfusion h
  next fa hfrom =>
  split at h
  next e hto => exact TxResult.noConfusion h
  next ta hto =>
  split at h
  next hbal => exact TxResult.noConfusion h
  next hbal =>
  simp only [db_transaction] at h
  have hdb' := (TxResult.ok.inj h).1
  have hresp := (TxResult.ok.inj h).2
  have hfafind := getAccountOr404_ok db data.from_account_id fa hfrom
  have htafind := getAccountOr404_ok db data.to_account_id ta hto
  have hfa := findAccount_some db data.from_account_id fa hfafind
  have hta := findAccount_some db data.to_account_id ta htafind
  have hload' := loadTransactionSchemaBT_ok b data hload
  have hne : fa.id ≠ ta.id := by
    rw [hfa.1, hta.1]; exact hload'.2.2.2.1
  -- the response fields are those of the inserted row
  have hrespFrom : resp.from_account_id = fa.id := by rw [← hresp]; rfl
  have hrespTo : resp.to_account_id = ta.id := by rw [← hresp]; rfl
  have hrespAmt : resp.amount = data.amount := by rw [← hresp]; rfl
  -- the post-state account table is the mapped balance move
  have haccs : db'.accounts =
      db.accounts.map (applyBalanceMove fa.id ta.id data.amount now) := by
    rw [← hdb']
  -- the map decomposes into two single-account adjustments
  have hcomp : db.accounts.map (applyBalanceMove fa.id ta.id data.amount now)
      = (db.accounts.map (adjustBalance ta.id data.amount now)).map
          (adjustBalance fa.id (-data.amount) now) := by
    rw [List.map_map]
    exact List.map_congr_left (fun a _ =>
      applyBalanceMove_eq_comp fa.id ta.id data.amount now hne a)
  have hpred : ∀ (i : Int) (a : Account),
      ((applyBalanceMove fa.id ta.id data.amount now a).id == i)
        = (a.id == i) := by
    intro i a; rw [applyBalanceMove_id]
  have hfindFa : db.findAccount fa.id = some fa := by
    rw [hfa.1]; exact hfafind
  have hfindTa : db.findAccount ta.id = some ta := by
    rw [hta.1]; exact htafind
  refine ⟨?_, ?_, ?_⟩
  · -- source balance decreases by the amount
    have hfind' : db'.findAccount resp.from_account_id =
        some (applyBalanceMove fa.id ta.id data.amount now fa) := by
      unfold DB.findAccount
      rw [haccs, hrespFrom,
        find?_map_congr _ _ (hpred fa.id) db.accounts]
      have hstep : db.accounts.find? (fun a => a.id == fa.id) = some fa :=
        hfindFa
      rw [hstep, Option.map_some']
    have hfind0 : db.findAccount resp.from_account_id = some fa := by
      rw [hrespFrom]; exact hfindFa
    rw [balanceOf_eq_of_find db' resp.from_account_id _ hfind',
      balanceOf_eq_of_find db resp.from_account_id fa hfind0]
    unfold applyBalanceMove
    rw [if_pos rfl, hrespAmt]
  · -- destination balance increases by the amount
    have hfind' : db'.findAccount resp.to_account_id =
        some (applyBalanceMove fa.id ta.id data.amount now ta) := by
      unfold DB.findAccount
      rw [haccs, hrespTo,
        find?_map_congr _ _ (hpred ta.id) db.accounts]
      have hstep : db.accounts.find? (fun a => a.id == ta.id) = some ta :=
        hfindTa
      rw [hstep, Option.map_some']
    have hfind0 : db.findAccount resp.to_account_id = some ta := by
      rw [hrespTo]; exact hfindTa
    rw [balanceOf_eq_of_find db' resp.to_account_id _ hfind',
      balanceOf_eq_of_find db resp.to_account_id ta hfind0]
    unfold applyBalanceMove
    rw [if_neg (Ne.symm hne), if_pos rfl, hrespAmt]
  · -- total balance is conserved
    have hndT : ((db.accounts.map (adjustBalance ta.id data.amount now)).map
        (·.id)).Nodup := by
      rw [List.map_map]
      have : ((fun a => a.id) ∘ adjustBalance ta.id data.amount now)
          = fun (a : Account) => a.id := by
        funext a; exact adjustBalance_id ta.id data.amount now a
      rw [this]
      exact hwf.1
    have hmemT : ∃ x ∈ db.accounts.map (adjustBalance ta.id data.amount now),
        x.id = fa.id := by
      refine ⟨adjustBalance ta.id data.amount now fa,
        List.mem_map_of_mem _ hfa.2, ?_⟩
      exact adjustBalance_id ta.id data.amount now fa
    rw [haccs, hcomp]
    rw [balancesSum_map_adjust fa.id (-data.amount) now _ hndT hmemT]
    rw [balancesSum_map_adjust ta.id data.amount now db.accounts hwf.1
      ⟨ta, hta.2, rfl⟩]
    ring

/-- Witness for C1: the concrete scenario of the spec (500.00 and 0.00,
transfer 100.00) run through `c1_create_conserves_balances`. -/
theorem c1_create_conserves_balances_witness :
    dbSampleAfter.balanceOf respSample.from_account_id
      = dbSample.balanceOf respSample.from_account_id - respSample.amount ∧
    dbSampleAfter.balanceOf respSample.to_account_id
      = dbSample.balanceOf respSample.to_account_id + respSample.amount ∧
    balancesSum dbSampleAfter.accounts = balancesSum dbSample.accounts :=
  c1_create_conserves_balances dbSample 5 (some bodySample) dbSampleAfter
    respSample (by decide) (by decide)

/-- C2.  Create and updateState run their writes inside a single
`db_transaction` unit of work: a store failure after the tentative writes
(balance decrement and row insertion for create, state overwrite for update)
surfaces the wrapped original error with the observable state rolled back to
the pre-operation state, and every failing create/update leaves the
observable state equal to the pre-operation state. -/
theorem c2_atomic_rollback (db : DB) (now : Nat) (m : String) :
    (∀ body db1 r, create_transaction_bt db now body none = .ok db1 r →
      create_transaction_bt db now body (some m)
        = .err db (.apiError 500 ("Transaction error: " ++ m))) ∧
    (∀ tid body db1 r, update_transaction db now tid body none = .ok db1 r →
      update_transaction db now tid body (some m)
        = .err db (.apiError 500 ("Transaction error: " ++ m))) ∧
    (∀ body fault s e, create_transaction_bt db now body fault = .err s e →
      s = db) ∧
    (∀ tid body fault s e, update_transaction db now tid body fault = .err s e →
      s = db) := by
  refine ⟨?_, ?_, ?_, ?_⟩
  · intro body db1 r hok
    cases body with
    | none => simp [create_transaction_bt] at hok
    | some b =>
      simp only [create_transaction_bt] at hok ⊢
      by_cases hfalsy : b.falsy = true
      · rw [if_pos hfalsy] at hok; exact TxResult.noConfusion hok
      · rw [if_neg hfalsy] at hok ⊢
        cases hload : loadTransactionSchemaBT b with
        | error msgs =>
          rw [hload] at hok; exact TxResult.noConfusion hok
        | ok data =>
          simp only [hload] at hok ⊢
          cases hfrom : getAccountOr404 db data.from_account_id with
          | error e =>
            simp only [hfrom] at hok; exact TxResult.noConfusion hok
          | ok fa =>
            simp only [hfrom] at hok ⊢
            cases hto : getAccountOr404 db data.to_account_id with
            | error e =>
              simp only [hto] at hok; exact TxResult.noConfusion hok
            | ok ta =>
              simp only [hto] at hok ⊢
              by_cases hbal : fa.balance < data.amount
              · rw [if_pos hbal] at hok; exact TxResult.noConfusion hok
              · rw [if_neg hbal] at hok ⊢
                simp only [db_transaction]
  · intro tid body db1 r hok
    cases body with
    | none => simp [update_transaction] at hok
    | some b =>
      simp only [update_transaction] at hok ⊢
      by_cases hfalsy : b.falsy = true
      · rw [if_pos hfalsy] at hok; exact TxResult.noConfusion hok
      · rw [if_neg hfalsy] at hok ⊢
        cases hload : loadTransactionUpdateSchema b with
        | error msgs =>
          rw [hload] at hok; exact TxResult.noConfusion hok
        | ok s =>
          simp only [hload] at hok ⊢
          cases hget : getTransactionOr404 db tid with
          | error e =>
            simp only [hget] at hok; exact TxResult.noConfusion hok
          | ok t0 =>
            simp only [hget] at hok ⊢
            simp only [db_transaction]
  · intro body fault s e h
    cases body with
    | none =>
      simp only [create_transaction_bt] at h
      exact ((TxResult.err.inj h).1).symm
    | some b =>
      simp only [create_transaction_bt] at h
      split at h
      · exact ((TxResult.err.inj h).1).symm
      split at h
      next msgs hload => exact ((TxResult.err.inj h).1).symm
      next data hload =>
      split at h
      next e' hfrom => exact ((TxResult.err.inj h).1).symm
      next fa hfrom =>
      split at h
      next e' hto => exact ((TxResult.err.inj h).1).symm
      next ta hto =>
      split at h
      next hbal => exact ((TxResult.err.inj h).1).symm
      next hbal =>
      split at h
      next db2 t2 hmatch => exact TxResult.noConfusion h
      next db2 e2 hmatch =>
        rw [← (TxResult.err.inj h).1]
        exact db_transaction_err _ _ _ _ hmatch
  · intro tid body fault s e h
    cases body with
    | none =>
      simp only [update_transaction] at h
      exact ((TxResult.err.inj h).1).symm
    | some b =>
      simp only [update_transaction] at h
      split at h
      · exact ((TxResult.err.inj h).1).symm
      split at h
      next msgs hload => exact ((TxResult.err.inj h).1).symm
      next s0 hload =>
      split at h
      next e' hget => exact ((TxResult.err.inj h).1).symm
      next t0 hget =>
      split at h
      next db2 t2 hmatch => exact TxResult.noConfusion h
      next db2 e2 hmatch =>
        rw [← (TxResult.err.inj h).1]
        exact db_transaction_err _ _ _ _ hmatch

/-- Witness for C2: a simulated store failure at commit of the sample create
rolls the state back to `dbSample` and surfaces the wrapped error. -/
theorem c2_atomic_rollback_witness :
    create_transaction_bt dbSample 5 (some bodySample) (some "boom")
      = .err dbSample (.apiError 500 ("Transaction error: " ++ "boom")) :=
  (c2_atomic_rollback dbSample 5 "boom").1 (some bodySample) dbSampleAfter
    respSample (by decide)

/-- A limit outside [1, 100] makes `TransactionQuerySchema.load` fail with the
range error among its collected messages. -/
theorem loadTransactionQuerySchema_limit_invalid (l : Int) (offset : Option Int)
    (sb so srch : Option String) (hcond : l ≤ 0 ∨ 100 < l) :
    ∃ d, loadTransactionQuerySchema (some l) offset sb so srch = .error d ∧
      ("limit", ["Limit must be between 1 and 100"]) ∈ d := by
  have hlim : limitFieldErrors (some l)
      = [("limit", ["Limit must be between 1 and 100"])] := by
    simp only [limitFieldErrors]
    have hb : (l < 1 || 100 < l) = true := by
      rcases hcond with h | h <;> simp <;> omega
    rw [if_pos hb]
  have hmem : ("limit", ["Limit must be between 1 and 100"])
      ∈ transactionQueryErrors (some l) offset sb so srch := by
    unfold transactionQueryErrors
    rw [hlim]
    exact List.mem_append_left _ (List.mem_append_left _
      (List.mem_append_left _ (List.mem_append_left _
        (List.mem_cons_self _ _))))
  refine ⟨transactionQueryErrors (some l) offset sb so srch, ?_, hmem⟩
  unfold loadTransactionQuerySchema
  rw [if_neg ?_]
  intro hE
  rw [List.isEmpty_iff.mp hE] at hmem
  exact List.not_mem_nil _ hmem

/-- A limit outside [1, 100] makes `AccountQuerySchema.load` fail with the
range error among its collected messages. -/
theorem loadAccountQuerySchema_limit_invalid (l : Int) (offset : Option Int)
    (sb so : Option String) (hcond : l ≤ 0 ∨ 100 < l) :
    ∃ d, loadAccountQuerySchema (some l) offset sb so = .error d ∧
      ("limit", ["Limit must be between 1 and 100"]) ∈ d := by
  have hlim : limitFieldErrors (some l)
      = [("limit", ["Limit must be between 1 and 100"])] := by
    simp only [limitFieldErrors]
    have hb : (l < 1 || 100 < l) = true := by
      rcases hcond with h | h <;> simp <;> omega
    rw [if_pos hb]
  have hmem : ("limit", ["Limit must be between 1 and 100"])
      ∈ accountQueryErrors (some l) offset sb so := by
    unfold accountQueryErrors
    rw [hlim]
    exact List.mem_append_left _ (List.mem_append_left _
      (List.mem_append_left _ (List.mem_cons_self _ _)))
  refine ⟨accountQueryErrors (some l) offset sb so, ?_, hmem⟩
  unfold loadAccountQuerySchema
  rw [if_neg ?_]
  intro hE
  rw [List.isEmpty_iff.mp hE] at hmem
  exact List.not_mem_nil _ hmem

/-- Bounds guaranteed by a successful `TransactionQuerySchema.load`: the
validated limit is the supplied one (default 100) and a supplied limit lies in
[1, 100]. -/
theorem loadTransactionQuerySchema_ok_limit (limit offset : Option Int)
    (sb so srch : Option String) (qp : TransactionQuery)
    (h : loadTransactionQuerySchema limit offset sb so srch = .ok qp) :
    qp.limit = limit.getD 100 ∧ ∀ l, limit = some l → 1 ≤ l ∧ l ≤ 100 := by
  unfold loadTransactionQuerySchema at h
  split at h
  next hempty =>
    refine ⟨by rw [← (Except.ok.inj h)], ?_⟩
    intro l hl
    subst hl
    have hnil : limitFieldErrors (some l) = [] := by
      have hall := List.isEmpty_iff.mp hempty
      unfold transactionQueryErrors at hall
      rcases List.append_eq_nil.mp hall with ⟨h4, _⟩
      rcases List.append_eq_nil.mp h4 with ⟨h3, _⟩
      rcases List.append_eq_nil.mp h3 with ⟨h2, _⟩
      rcases List.append_eq_nil.mp h2 with ⟨h1, _⟩
      exact h1
    simp only [limitFieldErrors] at hnil
    by_cases hb : (l < 1 || 100 < l) = true
    · rw [if_pos hb] at hnil
      exact absurd hnil (List.noConfusion)
    · simp only [Bool.or_eq_true, decide_eq_true_eq, not_or] at hb
      omega
  next hempty => exact Except.noConfusion h

/-- Bounds guaranteed by a successful `AccountQuerySchema.load`. -/
theorem loadAccountQuerySchema_ok_limit (limit offset : Option Int)
    (sb so : Option String) (qp : AccountQuery)
    (h : loadAccountQuerySchema limit offset sb so = .ok qp) :
    qp.limit = limit.getD 100 ∧ ∀ l, limit = some l → 1 ≤ l ∧ l ≤ 100 := by
  unfold loadAccountQuerySchema at h
  split at h
  next hempty =>
    refine ⟨by rw [← (Except.ok.inj h)], ?_⟩
    intro l hl
    subst hl
    have hnil : limitFieldErrors (some l) = [] := by
      have hall := List.isEmpty_iff.mp hempty
      unfold accountQueryErrors at hall
      rcases List.append_eq_nil.mp hall with ⟨h3, _⟩
      rcases List.append_eq_nil.mp h3 with ⟨h2, _⟩
      rcases List.append_eq_nil.mp h2 with ⟨h1, _⟩
      exact h1
    simp only [limitFieldErrors] at hnil
    by_cases hb : (l < 1 || 100 < l) = true
    · rw [if_pos hb] at hnil
      exact absurd hnil (List.noConfusion)
    · simp only [Bool.or_eq_true, decide_eq_true_eq, not_or] at hb
      omega
  next hempty => exact Except.noConfusion h

/-- Row count bound of `LIMIT lim OFFSET off` for a nonnegative limit. -/
theorem sqlPage_length_le {α : Type} (lim off : Int) (hlim : 0 ≤ lim)
    (l : List α) : (sqlPage lim off l).length ≤ lim.toNat := by
  simp only [sqlPage]
  rw [if_neg (by omega : ¬ lim < 0), List.length_take]
  exact Nat.min_le_left _ _

/-- C3 counterexample: a transaction-list request with `limit=101` is rejected
with a `ValidationError`, not accepted with the limit clamped to 100. -/
theorem c3_counterexample_limit_101_rejected :
    get_transactions_ep dbSample (some 101) none none none none
      = .err dbSample (.validationError "Request validation failed"
          [("limit", ["Limit must be between 1 and 100"])]) := by decide

/-- C3 (amended).  For the transaction and account list operations: a limit
above 100 — like a limit of 0 or a negative limit — is rejected with
`ValidationError` carrying "Limit must be between 1 and 100" (it is not
clamped; clamping applies only to the /api/search endpoint); an absent limit
behaves as limit=100 and an absent offset behaves as offset=0; and a request
accepted with `limit=l` returns at most `l` (hence at most 100) rows. -/
theorem c3_list_pagination (db : DB) (limit offset : Option Int)
    (sb so srch : Option String) :
    (∀ l, limit = some l → (l ≤ 0 ∨ 100 < l) →
      (∃ d, get_transactions_ep db limit offset sb so srch
          = .err db (.validationError "Request validation failed" d) ∧
        ("limit", ["Limit must be between 1 and 100"]) ∈ d) ∧
      (∃ d, get_accounts_ep db limit offset sb so
          = .err db (.validationError "Request validation failed" d) ∧
        ("limit", ["Limit must be between 1 and 100"]) ∈ d)) ∧
    (get_transactions_ep db none offset sb so srch
      = get_transactions_ep db (some 100) offset sb so srch) ∧
    (get_transactions_ep db limit none sb so srch
      = get_transactions_ep db limit (some 0) sb so srch) ∧
    (get_accounts_ep db none offset sb so
      = get_accounts_ep db (some 100) offset sb so) ∧
    (get_accounts_ep db limit none sb so
      = get_accounts_ep db limit (some 0) sb so) ∧
    (∀ l db1 rows, limit = some l →
      get_transactions_ep db limit offset sb so srch = .ok db1 rows →
      rows.length ≤ l.toNat ∧ rows.length ≤ 100) ∧
    (∀ l db1 rows, limit = some l →
      get_accounts_ep db limit offset sb so = .ok db1 rows →
      rows.length ≤ l.toNat ∧ rows.length ≤ 100) := by
  refine ⟨?_, ?_, ?_, ?_, ?_, ?_, ?_⟩
  · intro l hl hcond
    subst hl
    constructor
    · obtain ⟨d, hd, hmem⟩ :=
        loadTransactionQuerySchema_limit_invalid l offset sb so srch hcond
      refine ⟨d, ?_, hmem⟩
      simp only [get_transactions_ep, hd]
    · obtain ⟨d, hd, hmem⟩ :=
        loadAccountQuerySchema_limit_invalid l offset sb so hcond
      refine ⟨d, ?_, hmem⟩
      simp only [get_accounts_ep, hd]
  · rfl
  · rfl
  · rfl
  · rfl
  · intro l db1 rows hl h
    subst hl
    cases hq : loadTransactionQuerySchema (some l) offset sb so srch with
    | error msgs =>
      simp only [get_transactions_ep, hq] at h
      exact TxResult.noConfusion h
    | ok qp =>
      simp only [get_transactions_ep, hq] at h
      have hrows := (TxResult.ok.inj h).2
      obtain ⟨hqlim, hbounds⟩ :=
        loadTransactionQuerySchema_ok_limit (some l) offset sb so srch qp hq
      obtain ⟨h1, h2⟩ := hbounds l rfl
      rw [Option.getD_some] at hqlim
      have hlen : rows.length ≤ qp.limit.toNat := by
        rw [← hrows, List.length_map]
        exact sqlPage_length_le qp.limit qp.offset (by omega) _
      rw [hqlim] at hlen
      exact ⟨hlen, by omega⟩
  · intro l db1 rows hl h
    subst hl
    cases hq : loadAccountQuerySchema (some l) offset sb so with
    | error msgs =>
      simp only [get_accounts_ep, hq] at h
      exact TxResult.noConfusion h
    | ok qp =>
      simp only [get_accounts_ep, hq] at h
      have hrows := (TxResult.ok.inj h).2
      obtain ⟨hqlim, hbounds⟩ :=
        loadAccountQuerySchema_ok_limit (some l) offset sb so qp hq
      obtain ⟨h1, h2⟩ := hbounds l rfl
      rw [Option.getD_some] at hqlim
      have hlen : rows.length ≤ qp.limit.toNat := by
        rw [← hrows, List.length_map]
        exact sqlPage_length_le qp.limit qp.offset (by omega) _
      rw [hqlim] at hlen
      exact ⟨hlen, by omega⟩

/-- Row returned for the sample transaction by the list endpoint. -/
def rowsSample : List TransactionResponse :=
  [{ id := 1, date := 3, amount := 2500, from_account_id := 1,
     to_account_id := 2, beneficiary := some "Bob Savings", state := "sent",
     description := "Transaction" }]

/-- Witness for C3 (amended): a request with `limit=1` against the sample
store returns one row, within both bounds. -/
theorem c3_list_pagination_witness :
    rowsSample.length ≤ (1 : Int).toNat ∧ rowsSample.length ≤ 100 :=
  (c3_list_pagination dbSample (some 1) none none none none).2.2.2.2.2.1
    1 dbSample rowsSample rfl (by decide)

/-- C4.  The /api/search endpoint rejects a missing or empty query with
`ValidationError("Search query is required")`, but for every non-empty query
it fails with a 500 "An unexpected error occurred" instead of returning
matches: building the transaction filter evaluates
`Transaction.beneficiary.ilike(...)` and `beneficiary` is a plain Python
property in src/models.py, not a mapped column. -/
theorem c4_search_transaction_filter_crashes (db : DB)
    (limit offset : Option Int) :
    (search_ep db none limit offset
      = .err db (.validationError "Search query is required" [])) ∧
    (search_ep db (some "") limit offset
      = .err db (.validationError "Search query is required" [])) ∧
    (∀ q, q ≠ "" → search_ep db (some q) limit offset
      = .err db (.unexpectedError "An unexpected error occurred")) := by
  refine ⟨rfl, rfl, ?_⟩
  intro q hq
  have hben : transactionIlike "beneficiary" q
      = .error (.unexpectedError "An unexpected error occurred") := by
    unfold transactionIlike
    rw [if_neg (by decide : ¬ "beneficiary" ∈ transactionColumnNames)]
  simp only [search_ep]
  rw [if_neg hq]
  simp only [hben]

/-- Witness for C4: the failing input — a search for "bob" against the sample
store, which contains a matching account and transaction. -/
theorem c4_search_transaction_filter_crashes_witness :
    search_ep dbSample (some "bob") none none
      = .err dbSample (.unexpectedError "An unexpected error occurred") :=
  (c4_search_transaction_filter_crashes dbSample none none).2.2 "bob"
    (by decide)

/-- C5.  For a PATCH of an existing transaction: a state value outside
{sent, received, paid} is rejected with a `ValidationError` whose details list
the allowed values, and a state value inside the set always succeeds,
whatever the transaction's current state (no transition-adjacency check). -/
theorem c5_update_state_validation (db : DB) (now : Nat) (tid : Int)
    (v : String) (hex : (db.findTransaction tid).isSome = true) :
    (v ∉ transactionStateValues →
      update_transaction db now tid
          (some { state := some v, unknownFields := [] }) none
        = .err db (.validationError "Request validation failed"
            [("state", ["State must be one of: sent, received, paid"])])) ∧
    (v ∈ transactionStateValues →
      ∃ db1 r, update_transaction db now tid
          (some { state := some v, unknownFields := [] }) none = .ok db1 r ∧
        r.state = v) := by
  have hfalsy : (UpdateBody.falsy { state := some v, unknownFields := [] })
      ≠ true := by
    simp [UpdateBody.falsy]
  constructor
  · intro hnot
    have hload : loadTransactionUpdateSchema
        { state := some v, unknownFields := [] }
        = .error [("state", ["State must be one of: sent, received, paid"])] := by
      simp [loadTransactionUpdateSchema, updateFieldErrors, oneOfField, hnot,
        stateOneOfMsg]
    simp only [update_transaction]
    rw [if_neg hfalsy]
    simp only [hload]
  · intro hv
    cases hfind : db.findTransaction tid with
    | none => rw [hfind] at hex; exact absurd hex (by simp)
    | some t0 =>
      have hload : loadTransactionUpdateSchema
          { state := some v, unknownFields := [] } = .ok v := by
        simp [loadTransactionUpdateSchema, updateFieldErrors, oneOfField, hv]
      have hget : getTransactionOr404 db tid = .ok t0 := by
        unfold getTransactionOr404; rw [hfind]
      simp only [update_transaction]
      rw [if_neg hfalsy]
      simp only [hload, hget, db_transaction]
      exact ⟨_, _, rfl, rfl⟩

/-- Store state after PATCHing the sample transaction to "paid" at time 7. -/
def dbUpdated : DB :=
  { dbSample with
    transactions := [{ tx0 with state := "paid", updated_at := 7 }] }

/-- Response of that PATCH. -/
def respUpdated : TransactionResponse :=
  { id := 1, date := 3, amount := 2500, from_account_id := 1,
    to_account_id := 2, beneficiary := some "Bob Savings", state := "paid",
    description := "Transaction" }

/-- Witness for C5: PATCHing the sample transaction (current state "sent")
to "paid" succeeds and the reported state is "paid". -/
theorem c5_update_state_validation_witness : respUpdated.state = "paid" := by
  obtain ⟨db1, r, heq, hst⟩ :=
    (c5_update_state_validation dbSample 7 1 "paid" (by decide)).2 (by decide)
  have h2 : update_transaction dbSample 7 1
      (some { state := some "paid", unknownFields := [] }) none
      = .ok dbUpdated respUpdated := by decide
  rw [h2] at heq
  rw [(TxResult.ok.inj heq).2]
  exact hst

/-- Facts guaranteed by a successful `TransactionSchema.load` (strict
blueprint variant): required fields present, amount at least one cent,
description in the enumerated types, and distinct account ids. -/
theorem loadTransactionSchema_ok (b : TransactionBody)
    (data : TransactionData) (h : loadTransactionSchema b = .ok data) :
    b.from_account_id = some data.from_account_id ∧
    b.to_account_id = some data.to_account_id ∧
    b.amount = some data.amount ∧
    data.from_account_id ≠ data.to_account_id ∧
    1 ≤ data.amount ∧
    data.description ∈ transactionTypeValues := by
  cases hf : b.from_account_id with
  | none => simp [loadTransactionSchema, hf] at h
  | some f =>
  cases ht : b.to_account_id with
  | none => simp [loadTransactionSchema, hf, ht] at h
  | some t =>
  cases ha : b.amount with
  | none => simp [loadTransactionSchema, hf, ht, ha] at h
  | some a =>
  cases hd : b.description with
  | none => simp [loadTransactionSchema, hf, ht, ha, hd] at h
  | some d =>
  rw [loadTransactionSchema] at h
  simp only [hf, ht, ha, hd] at h
  cases hempty : (transactionFieldErrors b).isEmpty with
  | false => rw [if_neg (by simp [hempty])] at h; exact Except.noConfusion h
  | true =>
    rw [if_pos hempty] at h
    by_cases hft : f = t
    · rw [if_pos hft] at h; exact Except.noConfusion h
    · rw [if_neg hft] at h
      have hdata := Except.ok.inj h
      have hnil : transactionFieldErrors b = [] :=
        List.isEmpty_iff.mp hempty
      rw [transactionFieldErrors, hf, ht, ha, hd] at hnil
      rcases List.append_eq_nil.mp hnil with ⟨hL6, _⟩
      rcases List.append_eq_nil.mp hL6 with ⟨hL5, _⟩
      rcases List.append_eq_nil.mp hL5 with ⟨hL4, _⟩
      rcases List.append_eq_nil.mp hL4 with ⟨hL3, hdesc⟩
      rcases List.append_eq_nil.mp hL3 with ⟨_, hamt⟩
      subst hdata
      refine ⟨rfl, rfl, rfl, hft, ?_, ?_⟩
      · show 1 ≤ a
        have := requiredMinIntField_eq_nil "amount" 1
          "Amount must be greater than zero" a hamt
        omega
      · show d ∈ transactionTypeValues
        exact oneOfField_some_eq_nil _ _ _ _ _ hdesc

/-- When any field of `TransactionSchema` fails, `load` returns exactly the
collected field errors. -/
theorem loadTransactionSchema_error_of_field (b : TransactionBody)
    (hne : transactionFieldErrors b ≠ []) :
    loadTransactionSchema b = .error (transactionFieldErrors b) := by
  have hnotE : ¬ ((transactionFieldErrors b).isEmpty = true) := by
    intro hE; exact hne (List.isEmpty_iff.mp hE)
  cases hf : b.from_account_id with
  | none => simp [loadTransactionSchema, hf, transactionFieldErrors]
  | some f =>
  cases ht : b.to_account_id with
  | none => simp [loadTransactionSchema, hf, ht, transactionFieldErrors]
  | some t =>
  cases ha : b.amount with
  | none => simp [loadTransactionSchema, hf, ht, ha, transactionFieldErrors]
  | some a =>
  cases hd : b.description with
  | none => simp [loadTransactionSchema, hf, ht, ha, hd, transactionFieldErrors]
  | some d =>
  rw [loadTransactionSchema]
  simp only [hf, ht, ha, hd]
  rw [if_neg hnotE]

/-- C6.  Transaction creation rejects a nonpositive amount with "Amount must
be greater than zero" and equal source/destination ids with "Source and
destination accounts must be different", persisting nothing in either case;
consequently creation preserves the invariant that every stored transaction
has a positive amount and distinct accounts. -/
theorem c6_create_validation_invariants (db : DB) (now : Nat)
    (b : TransactionBody) :
    (∀ a, b.amount = some a → a ≤ 0 →
      ∃ d, create_transaction db now (some b)
          = .err db (.validationError "Request validation failed" d) ∧
        ∃ msgs, ("amount", msgs) ∈ d ∧
          "Amount must be greater than zero" ∈ msgs) ∧
    (∀ i, b.from_account_id = some i → b.to_account_id = some i →
      ∃ d, create_transaction db now (some b)
        = .err db (.validationError "Request validation failed" d)) ∧
    (∀ i, b.from_account_id = some i → b.to_account_id = some i →
      transactionFieldErrors b = [] →
      create_transaction db now (some b)
        = .err db (.validationError "Request validation failed"
            [("to_account_id",
              ["Source and destination accounts must be different"])])) ∧
    ((∀ t ∈ db.transactions,
        0 < t.amount ∧ t.from_account_id ≠ t.to_account_id) →
      ∀ body db1 r, create_transaction db now body = .ok db1 r →
      ∀ t ∈ db1.transactions,
        0 < t.amount ∧ t.from_account_id ≠ t.to_account_id) := by
  refine ⟨?_, ?_, ?_, ?_⟩
  · intro a ha hle
    have hfalsy : b.falsy ≠ true := by
      simp [TransactionBody.falsy, ha]
    have hamtfield : requiredMinIntField "amount" 1
        "Amount must be greater than zero" (some a)
        = [("amount", ["Amount must be greater than zero"])] := by
      simp only [requiredMinIntField]
      rw [if_pos (by omega : a < 1)]
    have hmem : ("amount", ["Amount must be greater than zero"])
        ∈ transactionFieldErrors b := by
      rw [transactionFieldErrors, ha, hamtfield]
      exact List.mem_append_left _ (List.mem_append_left _
        (List.mem_append_left _ (List.mem_append_left _
          (List.mem_append_right _ (List.mem_cons_self _ _)))))
    have hne : transactionFieldErrors b ≠ [] := by
      intro hnil; rw [hnil] at hmem; exact List.not_mem_nil _ hmem
    have hload := loadTransactionSchema_error_of_field b hne
    refine ⟨transactionFieldErrors b, ?_, ["Amount must be greater than zero"],
      hmem, List.mem_cons_self _ _⟩
    simp only [create_transaction]
    rw [if_neg hfalsy]
    simp only [hload]
  · intro i hfi hti
    have hfalsy : b.falsy ≠ true := by
      simp [TransactionBody.falsy, hfi]
    cases hload : loadTransactionSchema b with
    | error msgs =>
      refine ⟨msgs, ?_⟩
      simp only [create_transaction]
      rw [if_neg hfalsy]
      simp only [hload]
    | ok data =>
      obtain ⟨hf, ht, _, hneq, _, _⟩ := loadTransactionSchema_ok b data hload
      rw [hfi] at hf; rw [hti] at ht
      exact absurd ((Option.some.inj hf).symm.trans (Option.some.inj ht))
        hneq
  · intro i hfi hti hferr
    have hfalsy : b.falsy ≠ true := by
      simp [TransactionBody.falsy, hfi]
    have hamtSome : ∃ a, b.amount = some a := by
      rw [transactionFieldErrors] at hferr
      rcases List.append_eq_nil.mp hferr with ⟨hL6, _⟩
      rcases List.append_eq_nil.mp hL6 with ⟨hL5, _⟩
      rcases List.append_eq_nil.mp hL5 with ⟨hL4, _⟩
      rcases List.append_eq_nil.mp hL4 with ⟨hL3, _⟩
      rcases List.append_eq_nil.mp hL3 with ⟨_, hamt⟩
      cases ha : b.amount with
      | none => rw [ha] at hamt; simp [requiredMinIntField] at hamt
      | some a => exact ⟨a, rfl⟩
    have hdescSome : ∃ d, b.description = some d := by
      rw [transactionFieldErrors] at hferr
      rcases List.append_eq_nil.mp hferr with ⟨hL6, _⟩
      rcases List.append_eq_nil.mp hL6 with ⟨hL5, _⟩
      rcases List.append_eq_nil.mp hL5 with ⟨hL4, _⟩
      rcases List.append_eq_nil.mp hL4 with ⟨_, hdesc⟩
      cases hd : b.description with
      | none => rw [hd] at hdesc; simp [oneOfField] at hdesc
      | some d => exact ⟨d, rfl⟩
    obtain ⟨a, ha⟩ := hamtSome
    obtain ⟨d, hd⟩ := hdescSome
    have hload : loadTransactionSchema b = .error
        [("to_account_id",
          ["Source and destination accounts must be different"])] := by
      rw [loadTransactionSchema]
      simp only [hfi, hti, ha, hd]
      rw [if_pos (by rw [hferr]; rfl : (transactionFieldErrors b).isEmpty = true)]
      simp
    simp only [create_transaction]
    rw [if_neg hfalsy]
    simp only [hload]
  · intro hinv body db1 r hok
    cases body with
    | none => simp [create_transaction] at hok
    | some b2 =>
      simp only [create_transaction] at hok
      by_cases hfalsy : b2.falsy = true
      · rw [if_pos hfalsy] at hok; exact TxResult.noConfusion hok
      · rw [if_neg hfalsy] at hok
        cases hload : loadTransactionSchema b2 with
        | error msgs =>
          rw [hload] at hok; exact TxResult.noConfusion hok
        | ok data =>
          simp only [hload] at hok
          cases hfrom : getAccountOr404 db data.from_account_id with
          | error e =>
            simp only [hfrom] at hok; exact TxResult.noConfusion hok
          | ok fa =>
            simp only [hfrom] at hok
            cases hto : getAccountOr404 db data.to_account_id with
            | error e =>
              simp only [hto] at hok; exact TxResult.noConfusion hok
            | ok ta =>
              simp only [hto, db_transaction] at hok
              have hdb1 := (TxResult.ok.inj hok).1
              obtain ⟨_, _, _, hneq, hpos, _⟩ :=
                loadTransactionSchema_ok b2 data hload
              have hfa := findAccount_some db data.from_account_id fa
                (getAccountOr404_ok db data.from_account_id fa hfrom)
              have hta := findAccount_some db data.to_account_id ta
                (getAccountOr404_ok db data.to_account_id ta hto)
              intro t hmem
              rw [← hdb1] at hmem
              rcases List.mem_append.mp hmem with hold | hnew
              · exact hinv t hold
              · rcases List.mem_singleton.mp hnew with rfl
                refine ⟨by show (0:Int) < data.amount; omega, ?_⟩
                show fa.id ≠ ta.id
                rw [hfa.1, hta.1]
                exact hneq

/-- Witness for C6: posting an amount of 0.00 against the sample store is
rejected with the amount error and persists nothing. -/
theorem c6_create_validation_invariants_witness :
    ∃ d, create_transaction dbSample 5
        (some { bodySample with beneficiary := none, amount := some 0 })
        = .err dbSample (.validationError "Request validation failed" d) ∧
      ∃ msgs, ("amount", msgs) ∈ d ∧
        "Amount must be greater than zero" ∈ msgs :=
  (c6_create_validation_invariants dbSample 5
      { bodySample with beneficiary := none, amount := some 0 }).1
    0 rfl (by omega)

theorem getTransactionOr404_error (db : DB) (i : Int) (e : APIErr)
    (h : getTransactionOr404 db i = .error e) : db.findTransaction i = none := by
  unfold getTransactionOr404 at h
  cases hf : db.findTransaction i with
  | none => rfl
  | some t => rw [hf] at h; exact Except.noConfusion h

/-- C7.  `get_or_404` fails with `ResourceNotFoundError` for ids that
reference no record — for GET of an account, GET of a transaction, and for
either account referenced by a create — and the store is unchanged in each
failure case. -/
theorem c7_resource_not_found (db : DB) (now : Nat) (i tid : Int)
    (b : TransactionBody) (data : TransactionData) (fa : Account) :
    (db.findAccount i = none →
      get_account_ep db i
        = .err db (.resourceNotFoundError s!"Account with ID {i} not found")) ∧
    (db.findTransaction tid = none →
      get_transaction_ep db tid
        = .err db
            (.resourceNotFoundError s!"Transaction with ID {tid} not found")) ∧
    (loadTransactionSchema b = .ok data →
      db.findAccount data.from_account_id = none →
      create_transaction db now (some b)
        = .err db (.resourceNotFoundError
            s!"Account with ID {data.from_account_id} not found")) ∧
    (loadTransactionSchema b = .ok data →
      db.findAccount data.from_account_id = some fa →
      db.findAccount data.to_account_id = none →
      create_transaction db now (some b)
        = .err db (.resourceNotFoundError
            s!"Account with ID {data.to_account_id} not found")) := by
  refine ⟨?_, ?_, ?_, ?_⟩
  · intro hnone
    simp only [get_account_ep, getAccountOr404, hnone]
  · intro hnone
    simp only [get_transaction_ep, getTransactionOr404, hnone]
  · intro hload hnone
    have hfalsy : b.falsy ≠ true := by
      have hf := (loadTransactionSchema_ok b data hload).1
      simp [TransactionBody.falsy, hf]
    have h404 : getAccountOr404 db data.from_account_id
        = .error (.resourceNotFoundError
            s!"Account with ID {data.from_account_id} not found") := by
      unfold getAccountOr404; rw [hnone]
    simp only [create_transaction]
    rw [if_neg hfalsy]
    simp only [hload, h404]
  · intro hload hsome hnone
    have hfalsy : b.falsy ≠ true := by
      have hf := (loadTransactionSchema_ok b data hload).1
      simp [TransactionBody.falsy, hf]
    have h404f : getAccountOr404 db data.from_account_id = .ok fa := by
      unfold getAccountOr404; rw [hsome]
    have h404t : getAccountOr404 db data.to_account_id
        = .error (.resourceNotFoundError
            s!"Account with ID {data.to_account_id} not found") := by
      unfold getAccountOr404; rw [hnone]
    simp only [create_transaction]
    rw [if_neg hfalsy]
    simp only [hload, h404f, h404t]

/-- Witness for C7: the spec's scenario GET /api/transactions/99999 against
the sample store. -/
theorem c7_resource_not_found_witness :
    get_transaction_ep dbSample 99999
      = .err dbSample
          (.resourceNotFoundError "Transaction with ID 99999 not found") :=
  (c7_resource_not_found dbSample 0 1 99999 bodySample
      { from_account_id := 1, to_account_id := 2, amount := 10000,
        description := "Transaction", state := none, beneficiary := none }
      acc1).2.1 (by decide)

/-- Facts guaranteed by a successful `TransactionUpdateSchema.load`: the body
supplied the returned state and it is one of the enumerated values. -/
theorem loadTransactionUpdateSchema_ok (ub : UpdateBody) (s : String)
    (h : loadTransactionUpdateSchema ub = .ok s) :
    ub.state = some s ∧ s ∈ transactionStateValues := by
  cases hs : ub.state with
  | none => simp [loadTransactionUpdateSchema, hs] at h
  | some v =>
    rw [loadTransactionUpdateSchema] at h
    simp only [hs] at h
    split at h
    next hempty =>
      have hv := Except.ok.inj h
      subst hv
      refine ⟨rfl, ?_⟩
      have hnil : updateFieldErrors ub = [] := List.isEmpty_iff.mp hempty
      rw [updateFieldErrors, hs] at hnil
      rcases List.append_eq_nil.mp hnil with ⟨hstate, _⟩
      exact oneOfField_some_eq_nil _ _ _ _ _ hstate
    next hempty => exact Except.noConfusion h

/-- C8.  A successful updateState changes only the target transaction's
`state` (and its `updated_at`): accounts (hence balances) and the id counter
are untouched, every other transaction is unchanged, and the target keeps its
date, amount, accounts and description. -/
theorem c8_update_state_frame (db : DB) (now : Nat) (tid : Int)
    (ub : UpdateBody) (db1 : DB) (r : TransactionResponse)
    (h : update_transaction db now tid (some ub) none = .ok db1 r) :
    db1.accounts = db.accounts ∧ db1.nextId = db.nextId ∧
    ∃ s, ub.state = some s ∧ s ∈ transactionStateValues ∧
      db1.transactions = db.transactions.map (fun t =>
        if t.id == tid then { t with state := s, updated_at := now } else t) := by
  simp only [update_transaction] at h
  split at h
  · exact TxResult.noConfusion h
  split at h
  next msgs hload => exact TxResult.noConfusion h
  next s0 hload =>
  split at h
  next e hget => exact TxResult.noConfusion h
  next t0 hget =>
  simp only [db_transaction] at h
  have hdb1 := (TxResult.ok.inj h).1
  obtain ⟨hstate, hmem⟩ := loadTransactionUpdateSchema_ok ub s0 hload
  refine ⟨by rw [← hdb1], by rw [← hdb1], s0, hstate, hmem, by rw [← hdb1]⟩

/-- Witness for C8: the PATCH of the sample transaction to "paid" leaves the
accounts, the id counter and every non-state field unchanged. -/
theorem c8_update_state_frame_witness :
    dbUpdated.accounts = dbSample.accounts ∧
    dbUpdated.nextId = dbSample.nextId ∧
    ∃ s, (some "paid" : Option String) = some s ∧
      s ∈ transactionStateValues ∧
      dbUpdated.transactions = dbSample.transactions.map (fun t =>
        if t.id == 1 then { t with state := s, updated_at := 7 } else t) :=
  c8_update_state_frame dbSample 7 1
    { state := some "paid", unknownFields := [] } dbUpdated respUpdated
    (by decide)

/-- Renaming of an account (no endpoint performs this; it is the state change
the claim quantifies over). -/
def renameAccount (db : DB) (i : Int) (nm : String) : DB :=
  { db with accounts := db.accounts.map (fun a =>
      if a.id = i then { a with account_name := nm } else a) }

/-- C9.  The `beneficiary` of every transaction read is computed at read time
as the current `account_name` of the destination account (and is `none` when
that account cannot be resolved), so renaming an account changes the
beneficiary reported for past transactions to it. -/
theorem c9_beneficiary_read_time (db : DB) (tid : Int) :
    (∀ db1 resp, get_transaction_ep db tid = .ok db1 resp →
      db1 = db ∧ ∃ t, db.findTransaction tid = some t ∧
        resp.beneficiary
          = (db.findAccount t.to_account_id).map (fun a => a.account_name)) ∧
    (∀ i nm t a, db.findTransaction tid = some t → t.to_account_id = i →
      db.findAccount i = some a →
      ∃ resp, get_transaction_ep (renameAccount db i nm) tid
          = .ok (renameAccount db i nm) resp ∧ resp.beneficiary = some nm) := by
  constructor
  · intro db1 resp h
    simp only [get_transaction_ep] at h
    cases hget : getTransactionOr404 db tid with
    | error e => rw [hget] at h; exact TxResult.noConfusion h
    | ok t =>
      simp only [hget] at h
      refine ⟨(TxResult.ok.inj h).1.symm, t,
        getTransactionOr404_ok db tid t hget, ?_⟩
      rw [← (TxResult.ok.inj h).2]
      rfl
  · intro i nm t a hfind hto ha
    have hfind' : (renameAccount db i nm).findTransaction tid = some t := hfind
    have hget : getTransactionOr404 (renameAccount db i nm) tid = .ok t := by
      unfold getTransactionOr404; rw [hfind']
    refine ⟨t.toResponse (renameAccount db i nm), ?_, ?_⟩
    · simp only [get_transaction_ep, hget]
    · show t.beneficiary (renameAccount db i nm) = some nm
      unfold Transaction.beneficiary
      have hid : ∀ x : Account,
          ((if x.id = i then { x with account_name := nm } else x).id == t.to_account_id)
            = (x.id == t.to_account_id) := by
        intro x; split <;> rfl
      have hfindA : (renameAccount db i nm).findAccount t.to_account_id
          = some { a with account_name := nm } := by
        unfold renameAccount DB.findAccount
        rw [find?_map_congr _ _ hid db.accounts]
        have : db.accounts.find? (fun x => x.id == t.to_account_id) = some a := by
          rw [hto]; exact ha
        rw [this, Option.map_some']
        have haid : a.id = i := (findAccount_some db i a ha).1
        rw [if_pos haid]
      rw [hfindA, Option.map_some']

/-- Witness for C9: after renaming account 2 to "Robert Trust", the sample
transaction's reported beneficiary is "Robert Trust". -/
theorem c9_beneficiary_read_time_witness :
    ∃ resp, get_transaction_ep (renameAccount dbSample 2 "Robert Trust") 1
        = .ok (renameAccount dbSample 2 "Robert Trust") resp ∧
      resp.beneficiary = some "Robert Trust" :=
  (c9_beneficiary_read_time dbSample 1).2 2 "Robert Trust" tx0 acc2
    (by decide) (by decide) (by decide)

/-- C10.  PATCH validates the body before looking the transaction up: a
missing body or an invalid state yields the 400 `ValidationError` even when
the id does not exist, and a 404 `ResourceNotFoundError` arises only after
the body passed validation, for an id with no transaction. -/
theorem c10_patch_validates_body_first (db : DB) (now : Nat) (tid : Int) :
    (update_transaction db now tid none none
      = .err db (.validationError "No JSON data provided" [])) ∧
    (∀ ub, ub.falsy = true → update_transaction db now tid (some ub) none
      = .err db (.validationError "No JSON data provided" [])) ∧
    (∀ ub msgs, loadTransactionUpdateSchema ub = .error msgs →
      ub.falsy ≠ true →
      update_transaction db now tid (some ub) none
        = .err db (.validationError "Request validation failed" msgs)) ∧
    (∀ ub s e, update_transaction db now tid (some ub) none
        = .err s (.resourceNotFoundError e) →
      (∃ v, loadTransactionUpdateSchema ub = .ok v) ∧
      db.findTransaction tid = none) := by
  refine ⟨rfl, ?_, ?_, ?_⟩
  · intro ub hf
    simp only [update_transaction]
    rw [if_pos hf]
  · intro ub msgs hload hf
    simp only [update_transaction]
    rw [if_neg hf]
    simp only [hload]
  · intro ub s e h
    simp only [update_transaction] at h
    split at h
    · exact absurd ((TxResult.err.inj h).2) (by simp)
    split at h
    next msgs hload => exact absurd ((TxResult.err.inj h).2) (by simp)
    next v hload =>
    split at h
    next e' hget =>
      refine ⟨⟨v, hload⟩, getTransactionOr404_error db tid e' hget⟩
    next t0 hget =>
      simp only [db_transaction] at h
      exact TxResult.noConfusion h

/-- Witness for C10: PATCHing the nonexistent id 99999 with an invalid state
value returns the 400 validation error, not a 404. -/
theorem c10_patch_validates_body_first_witness :
    update_transaction dbSample 7 99999
        (some { state := some "bogus", unknownFields := [] }) none
      = .err dbSample (.validationError "Request validation failed"
          [("state", ["State must be one of: sent, received, paid"])]) :=
  (c10_patch_validates_body_first dbSample 7 99999).2.2.1
    { state := some "bogus", unknownFields := [] }
    [("state", ["State must be one of: sent, received, paid"])]
    rfl (by decide)

end Peachtree
